import Mathlib

/-!
Verification of the concurrency and scheduling core of the minigo driver
(`cc/main.cc`): batch-size derivation, the generational barrier, the flag
reload protocol, the GTP subprocess bridge, paired-evaluation bookkeeping
and output naming.  Each C++ function used by the claims is shallowly
embedded as an executable Lean definition; mutex-guarded methods become
pure state transformers on the guarded fields, and pipe I/O becomes a
function of the list of reply lines the subprocess produces.
-/

namespace Minigo

/-! ### Batch size derivation (`NewDualNetFactory`, main.cc:158-171)

`batch_size = max((virtual_losses * num_parallel_games + buffer_count - 1)
/ buffer_count, virtual_losses)` with C++ integer (truncating) division,
which on nonnegative operands agrees with `Nat` division. -/

def batchSize (virtualLosses numParallelGames bufferCount : Nat) : Nat :=
  max ((virtualLosses * numParallelGames + bufferCount - 1) / bufferCount)
    virtualLosses

/-- The `(a + b - 1) / b` expression the source uses as a ceiling of `a / b`. -/
def natCeilDiv (a b : Nat) : Nat := (a + b - 1) / b

lemma natCeilDiv_is_upper (a b : Nat) (hb : 1 ≤ b) : a ≤ b * natCeilDiv a b := by
  unfold natCeilDiv
  have h := Nat.div_add_mod (a + b - 1) b
  have hr : (a + b - 1) % b < b := Nat.mod_lt _ hb
  omega

lemma natCeilDiv_is_least (a b n : Nat) (hb : 1 ≤ b) (hn : a ≤ b * n) :
    natCeilDiv a b ≤ n := by
  unfold natCeilDiv
  have hlt : a + b - 1 < (n + 1) * b := by
    have : (n + 1) * b = b * n + b := by ring
    omega
  have := (Nat.div_lt_iff_lt_mul (Nat.lt_of_lt_of_le Nat.zero_lt_one hb)).mpr hlt
  omega

/-! ### Generational barrier (`PairEvaluator::Barrier`, main.cc:537-573)

The barrier's three fields are all guarded by one mutex, so each method
executes atomically and is embedded as a pure transformer of the guarded
state.  `wait` additionally reports whether the calling thread enters the
condition-variable wait loop at all: the source captures
`auto generation = generation_;` and then loops `while (generation !=
generation_) cond_var_.Wait(&mutex_);`, so the returned flag is the value
of that loop guard on first evaluation (when `true`, the thread blocks
until the guard turns false). -/

structure BarrierState where
  count : Nat
  numWaiting : Nat
  generation : Nat
  deriving DecidableEq, Repr

/-- Embeds `IncrementGeneration` (main.cc:562-566): bump the generation, reset the
waiting counter, signal all waiters. -/
def incrementGeneration (s : BarrierState) : BarrierState :=
  { s with generation := s.generation + 1, numWaiting := 0 }

/-- Embeds `Barrier::Wait` (main.cc:542-552).  Returns the post state together
with whether the caller enters the wait loop (first evaluation of the loop
guard `generation != generation_`, where `generation` is the value
captured just before the loop). -/
def wait (s : BarrierState) : BarrierState × Bool :=
  let afterInc : BarrierState := { s with numWaiting := s.numWaiting + 1 }
  if afterInc.numWaiting = afterInc.count then
    (incrementGeneration afterInc, false)
  else
    let captured := afterInc.generation
    (afterInc, decide (captured ≠ afterInc.generation))

/-- Embeds `Barrier::DecrementCount` (main.cc:554-559). -/
def decrementCount (s : BarrierState) : BarrierState :=
  let afterDec : BarrierState := { s with count := s.count - 1 }
  if afterDec.numWaiting = afterDec.count then
    incrementGeneration afterDec
  else
    afterDec

/-! ### Flag reload (`SelfPlayer::MaybeReloadFlags`, main.cc:485-523)

Strings are embedded as `List Char`.  The file-system inputs that the
method reads (the configured `--flags_path`, the file's modification time
and its contents) are collected in a `ReloadEnv`; the guarded field
`flags_timestamp_` is passed and returned explicitly.  A tripped
`MG_CHECK` aborts the process and is embedded as the `fatal` outcome. -/

/-- Embeds `absl::ascii_isspace`: space, tab, newline, vertical tab, form feed,
carriage return. -/
def isAsciiSpace (c : Char) : Bool :=
  c = ' ' || c = '\t' || c = '\n' || c = '\x0b' || c = '\x0c' || c = '\r'

/-- Embeds `absl::StripAsciiWhitespace`: drop leading and trailing ASCII
whitespace. -/
def stripAsciiWhitespace (s : List Char) : List Char :=
  ((s.dropWhile isAsciiSpace).reverse.dropWhile isAsciiSpace).reverse

/-- Embeds `absl::StrSplit(s, absl::MaxSplits(c, 1))` landed in a pair: the part
before the first `c` and the part after it (empty when `c` is absent). -/
def splitFirst (c : Char) (s : List Char) : List Char × List Char :=
  (s.takeWhile (fun x => x ≠ c), (s.dropWhile (fun x => x ≠ c)).drop 1)

/-- Embeds `absl::StrSplit(s, c)`: all pieces between occurrences of `c`. -/
def splitChar (c : Char) : List Char → List (List Char)
  | [] => [[]]
  | x :: xs =>
    match splitChar c xs with
    | [] => [[]]
    | cur :: rest => if x = c then [] :: cur :: rest else (x :: cur) :: rest

/-- Outcome of the per-line body of the reload loop (main.cc:507-522). -/
inductive LineResult where
  | fatal (stripped : List Char)
  | emptyLine
  | flagValue (name value : List Char)
  deriving DecidableEq, Repr

/-- One iteration of the reload loop: split off a `#` comment, strip
whitespace, skip empty lines, fatally require `line.length() > 2 &&
line[0] == '-' && line[1] == '-'`, then split on the first `=` and drop
the `--` from the flag name. -/
def processLine (rawLine : List Char) : LineResult :=
  let ln := stripAsciiWhitespace (splitFirst '#' rawLine).1
  if ln = [] then .emptyLine
  else if 2 < ln.length ∧ ln[0]? = some '-' ∧ ln[1]? = some '-' then
    let fv := splitFirst '=' ln
    .flagValue (fv.1.drop 2) fv.2
  else .fatal ln

/-- Run the reload loop over all lines, collecting the
`SetCommandLineOption` calls in order; the first bad line aborts. -/
def collectOverrides :
    List (List Char) → Except (List Char) (List (List Char × List Char))
  | [] => .ok []
  | l :: ls =>
    match processLine l with
    | .fatal s => .error s
    | .emptyLine => collectOverrides ls
    | .flagValue n v => (collectOverrides ls).map (fun rest => (n, v) :: rest)

/-- The inputs `MaybeReloadFlags` reads from the file system. -/
structure ReloadEnv where
  flagsPath : List Char
  modTime : Nat
  contents : List Char

/-- Embeds `SelfPlayer::MaybeReloadFlags` (main.cc:485-523): no-op when
`flags_path` is empty or the modification time equals the stored
`flags_timestamp_`; otherwise store the new timestamp and apply the
file's lines as flag overrides.  Returns the new timestamp and the
overrides applied. -/
def maybeReloadFlags (env : ReloadEnv) (lastTimestamp : Nat) :
    Except (List Char) (Nat × List (List Char × List Char)) :=
  if env.flagsPath = [] then .ok (lastTimestamp, [])
  else if env.modTime = lastTimestamp then .ok (lastTimestamp, [])
  else
    let lines := (splitChar '\n' env.contents).filter (fun l => l ≠ [])
    (collectOverrides lines).map (fun ovs => (env.modTime, ovs))

/-! ### Model-switch rejection (`SelfPlayer::ThreadRun`, main.cc:416-425) -/

/-- gflags flag state as an association list; `gflags::SetCommandLineOption`
replaces the binding for a name. -/
def setFlag (flags : List (List Char × List Char)) (name value : List Char) :
    List (List Char × List Char) :=
  match flags with
  | [] => [(name, value)]
  | (n, v) :: rest =>
    if n = name then (n, value) :: rest else (n, v) :: setFlag rest name value

/-- Read a flag's current value (empty when unset). -/
def getFlag (flags : List (List Char × List Char)) (name : List Char) :
    List Char :=
  match flags with
  | [] => []
  | (n, v) :: rest => if n = name then v else getFlag rest name

/-- Apply the reload's overrides in order. -/
def applyOverrides (flags : List (List Char × List Char))
    (ovs : List (List Char × List Char)) : List (List Char × List Char) :=
  ovs.foldl (fun f nv => setFlag f nv.1 nv.2) flags

def modelFlagName : List Char := ("model").toList

def modelSwitchError : List Char :=
  ("Manually changing the model during selfplay is not supported.").toList

/-- The per-game reload checkpoint in `SelfPlayer::ThreadRun`
(main.cc:416-425): remember `FLAGS_model`, run `MaybeReloadFlags`, then
`MG_CHECK(old_model == FLAGS_model)`. -/
def selfplayReloadCheckpoint (flags : List (List Char × List Char))
    (env : ReloadEnv) (lastTimestamp : Nat) :
    Except (List Char) (List (List Char × List Char) × Nat) :=
  let oldModel := getFlag flags modelFlagName
  match maybeReloadFlags env lastTimestamp with
  | .error e => .error e
  | .ok (ts, ovs) =>
    let newFlags := applyOverrides flags ovs
    if getFlag newFlags modelFlagName = oldModel then .ok (newFlags, ts)
    else .error modelSwitchError

/-! ### GTP subprocess bridge (`GtpEvaluator::GtpClient`, main.cc:733-830)

The bridge's pipe I/O is embedded by passing in the reply lines the
subprocess produces; the only mutable field, `color_`, is threaded
explicitly. -/

inductive Color where
  | black
  | white
  deriving DecidableEq, Repr

def OtherColor : Color → Color
  | .black => .white
  | .white => .black

/-- The `absl::optional<std::string>` a `Send` call produces: `absent`
embeds `absl::nullopt`. -/
inductive SendResult where
  | absent
  | payload (s : List Char)
  deriving DecidableEq, Repr

/-- The reply-reading loop of `GtpClient::Send` (main.cc:808-824) over the
subprocess's reply lines: empty lines and lines whose first character is
neither `?` nor `=` are skipped; a `?` line returns `absl::nullopt`; an
`=` line returns the line with the leading `=` erased and surrounding
whitespace stripped.  `none` embeds the loop never receiving a framing
line (the C++ loop would keep blocking on `getline`). -/
def send : List (List Char) → Option SendResult
  | [] => none
  | l :: rest =>
    if l = [] then send rest
    else if l[0]? = some '?' then some .absent
    else if l[0]? = some '=' then
      some (.payload (stripAsciiWhitespace (l.drop 1)))
    else send rest

/-- The coordinate values the driver distinguishes: `Coord::kResign`,
`Coord::kInvalid`, a pass, or a board point. -/
inductive Coord where
  | point (n : Nat)
  | pass
  | resign
  | invalid
  deriving DecidableEq, Repr

/-- Embeds `GtpClient::Play` (main.cc:773-781), with the `Send` result for the
`play` command supplied as `reply`: `success = Send(...).has_value()`, and
`color_` flips to `OtherColor` only on success. -/
def gtpPlay (color : Color) (reply : SendResult) : Bool × Color :=
  let success := match reply with
    | .payload _ => true
    | .absent => false
  if success then (success, OtherColor color) else (success, color)

/-- The external-side half of one iteration of `GtpEvaluator::ThreadRun`'s
game loop (main.cc:896-901): the MCTS player suggested `suggested`; when
`gtp_client->Play(suggested)` fails, the move actually played on the MCTS
player's board is replaced by `Coord::kResign`.  Returns the move played
and the bridge's color afterwards. -/
def evalPlayStep (suggested : Coord) (color : Color) (reply : SendResult) :
    Coord × Color :=
  let pc := gtpPlay color reply
  (if pc.1 then suggested else Coord.resign, pc.2)

/-- Modelled from the spec: the `MctsPlayer` collaborator (implemented in
`cc/mcts_player.cc`, outside the provided source), restricted to what the
GTP evaluation loop consults — the side to move, and which side, if any,
ended the game by resigning. -/
structure MctsPlayerModel where
  toPlay : Color
  resignedBy : Option Color
  deriving DecidableEq, Repr

/-- Modelled from the spec: `MctsPlayer::PlayMove` at the granularity
above — an ordinary move passes the turn to the other color; playing
`Coord::kResign` ends the game as a resignation by the side to move. -/
def playMove (p : MctsPlayerModel) (mv : Coord) : MctsPlayerModel :=
  if mv = Coord.resign then { p with resignedBy := some p.toPlay }
  else { p with toPlay := OtherColor p.toPlay }

/-- Modelled from the spec: `MctsPlayer::result()` for a game ended by
resignation — per the player contract ("current result (signed scalar,
positive favors the first player)", spec section 6), the resigning side
loses: a resignation by black yields a negative result and a resignation
by white a positive one. -/
def resignResult (p : MctsPlayerModel) : ℚ :=
  match p.resignedBy with
  | some Color.black => -1
  | some Color.white => 1
  | none => 0

/-- Embeds one iteration of `GtpEvaluator::ThreadRun`'s game loop through
its first `PlayMove` (main.cc:896-901): the MCTS player suggested
`suggested`; `gtp_client->Play(suggested)` elicited `reply`; on failure
`suggested` is replaced by `Coord::kResign`; the resulting move is then
played on the MCTS player's own board, in the MCTS player's own turn.
Returns the updated player and the bridge's color. -/
def gtpLoopIter (p : MctsPlayerModel) (bridgeColor : Color)
    (suggested : Coord) (reply : SendResult) : MctsPlayerModel × Color :=
  let mc := evalPlayStep suggested bridgeColor reply
  (playMove p mc.1, mc.2)

/-- Embeds `EvalResults` (main.cc:260-266), counters only. -/
structure EvalResults where
  blackWins : Nat
  whiteWins : Nat
  deriving DecidableEq, Repr

/-- Embeds the tally at the end of `GtpEvaluator::ThreadRun`
(main.cc:908-913): `result() > 0` increments `black_results->black_wins`
and `result() < 0` increments `white_results->white_wins`.  Which
argument holds the external engine's counters depends on the cohort
(main.cc:848-857): with `gtp_is_black = false` (thread 0's cohort, the
MCTS agent playing black) `white_results` is the engine's `gtp_results`;
in the swapped cohort `black_results` is. -/
def gtpThreadRunTally (r : ℚ) (blackResults whiteResults : EvalResults) :
    EvalResults × EvalResults :=
  (if 0 < r then
    { blackResults with blackWins := blackResults.blackWins + 1 }
   else blackResults,
   if r < 0 then
    { whiteResults with whiteWins := whiteResults.whiteWins + 1 }
   else whiteResults)

/-! ### Paired evaluation (`PairEvaluator::ThreadRun`, main.cc:640-725) -/

/-- Per-thread mirrored game state: the move histories of the two player
instances; `playerHist` belongs to whichever instance the local variable
`player` currently names, `otherHist` to `other_player`. -/
structure PairGameState where
  playerHist : List Coord
  otherHist : List Coord
  deriving DecidableEq, Repr

/-- One iteration of the move loop (main.cc:676-699): `player` plays `mv`,
`other_player` plays the same `mv`, then `player` and `other_player` are
swapped (as are the factories). -/
def pairMoveStep (s : PairGameState) (mv : Coord) : PairGameState :=
  { playerHist := s.otherHist ++ [mv], otherHist := s.playerHist ++ [mv] }

/-- Run the move loop over the whole game from two fresh players. -/
def runPairGame (moves : List Coord) : PairGameState :=
  moves.foldl pairMoveStep { playerHist := [], otherHist := [] }

/-- The post-game tally (main.cc:703-709).  After the initial
`swap_models` swap, `model` is the model whose instance plays black and
`other_model` the one whose instance plays white; with the agreed result
`r` (a signed score, positive favors black, embedded as a rational),
`r > 0` increments `model->results.black_wins` and `r < 0` increments
`other_model->results.white_wins`. -/
def threadRunTally (r : ℚ) (model otherModel : EvalResults) :
    EvalResults × EvalResults :=
  let model' :=
    if 0 < r then { model with blackWins := model.blackWins + 1 } else model
  let other' :=
    if r < 0 then { otherModel with whiteWins := otherModel.whiteWins + 1 }
    else otherModel
  (model', other')

/-! ### Output naming (`GetOutputName`/`GetOutputDir`, main.cc:173-186) -/

/-- Embeds `GetOutputName` (main.cc:173-181):
`absl::StrCat(absl::ToUnixSeconds(now), "-", hostname, "-", i)`.  Times at
or after the Unix epoch are embedded by their second count `t`. -/
def getOutputName (t : Nat) (hostname : String) (i : Nat) : String :=
  toString t ++ "-" ++ hostname ++ "-" ++ toString i

/-- Gregorian civil date (year, month, day) of day number `days` counted
from 1970-01-01: the standard civil-from-days computation, matching the
`%Y`, `%m`, `%d` fields `absl::FormatTime` renders at UTC. -/
def civilFromDays (days : Nat) : Nat × Nat × Nat :=
  let z := days + 719468
  let era := z / 146097
  let doe := z % 146097
  let yoe := (doe - doe / 1460 + doe / 36524 - doe / 146096) / 365
  let y := yoe + era * 400
  let doy := doe - (365 * yoe + yoe / 4 - yoe / 100)
  let mp := (5 * doy + 2) / 153
  let d := doy - (153 * mp + 2) / 5 + 1
  let m := if mp < 10 then mp + 3 else mp - 9
  (if m ≤ 2 then y + 1 else y, m, d)

/-- Zero-padded two-digit rendering used by `%m`, `%d` and `%H`. -/
def pad2 (n : Nat) : String := if n < 10 then "0" ++ toString n else toString n

/-- Embeds `absl::FormatTime("%Y-%m-%d-%H", now, absl::UTCTimeZone())` for a time
`t` seconds after the Unix epoch. -/
def formatUtcBucket (t : Nat) : String :=
  let c := civilFromDays (t / 86400)
  toString c.1 ++ "-" ++ pad2 c.2.1 ++ "-" ++ pad2 c.2.2 ++ "-" ++
    pad2 (t % 86400 / 3600)

/-- Embeds `GetOutputDir` (main.cc:183-186): `file::JoinPath(root_dir, sub_dirs)`
with the UTC hour bucket as the subdirectory. -/
def getOutputDir (t : Nat) (rootDir : String) : String :=
  rootDir ++ "/" ++ formatUtcBucket t

/-! ### Worker counts at the `NewDualNetFactory` call sites -/

/-- Embeds the call site in `SelfPlayer::Run` (main.cc:354):
`NewDualNetFactory(FLAGS_model, FLAGS_parallel_games)`. -/
def selfPlayerFactoryGames (parallelGames : Nat) : Nat := parallelGames

/-- Embeds the call site in `PairEvaluator::Model` (main.cc:593-596):
`NewDualNetFactory(model_path, FLAGS_parallel_games)`. -/
def pairEvaluatorFactoryGames (parallelGames : Nat) : Nat := parallelGames

/-- Embeds the call site in `GtpEvaluator::Run` (main.cc:836-837):
`NewDualNetFactory(FLAGS_model, std::max(FLAGS_parallel_games / 2, 1))`. -/
def gtpEvaluatorFactoryGames (parallelGames : Nat) : Nat :=
  max (parallelGames / 2) 1

/-- The batch size of the shared factory the GTP evaluator creates. -/
def gtpEvaluatorBatchSize (parallelGames virtualLosses bufferCount : Nat) :
    Nat :=
  batchSize virtualLosses (gtpEvaluatorFactoryGames parallelGames) bufferCount

/-! ## Claim theorems -/

/-- C2: for all `W, V, B ≥ 1` the derived inference batch size equals
`max(ceil(V*W/B), V)`, where `natCeilDiv (V*W) B` is exactly the
mathematical ceiling of `V*W/B` (it is an upper bound, conjunct 2, and
the least one, conjunct 3); in particular the result is `≥ V` and
`≥ ceil(V*W/B)`, and for `W = 32, V = 8, B = 8` it is `32`. -/
theorem batchSize_eq_max_ceil (W V B : Nat) (hW : 1 ≤ W) (hV : 1 ≤ V)
    (hB : 1 ≤ B) :
    batchSize V W B = max (natCeilDiv (V * W) B) V
    ∧ V * W ≤ B * natCeilDiv (V * W) B
    ∧ (∀ n, V * W ≤ B * n → natCeilDiv (V * W) B ≤ n)
    ∧ V ≤ batchSize V W B
    ∧ natCeilDiv (V * W) B ≤ batchSize V W B
    ∧ batchSize 8 32 8 = 32 :=
  ⟨rfl, natCeilDiv_is_upper _ _ hB,
    fun n hn => natCeilDiv_is_least _ _ _ hB hn,
    le_max_right _ _, le_max_left _ _, by decide⟩

theorem batchSize_eq_max_ceil_witness : batchSize 8 32 8 = 32 :=
  (batchSize_eq_max_ceil 32 8 8 (by decide) (by decide) (by decide)).2.2.2.2.2

/-- C1: evidence of the divergence on the code.  With `count = 2`, the
first of the two threads to call `Wait()` must, per the claim (and the
barrier's own comment at main.cc:533-536), block inside `Wait()` until
the second caller arrives.  The code captures
`auto generation = generation_;` and then loops
`while (generation != generation_) cond_var_.Wait(&mutex_);` — a guard
that is false at its first evaluation — so the call returns immediately:
the returned blocking flag is `false` and the thread leaves `Wait()` with
`numWaiting = 1 < count` and the generation unchanged, never having
waited on the condition variable. -/
theorem wait_returns_without_blocking :
    wait { count := 2, numWaiting := 0, generation := 0 } =
      ({ count := 2, numWaiting := 1, generation := 0 }, false) := by decide

/-- C3: barrier state invariant and `DecrementCount`, for any state in
which the caller is a participant that is not already waiting
(`numWaiting < count`).  `Wait` releases — bumps the generation and
resets the waiting counter — exactly when the incremented waiting count
reaches `count`, and otherwise only increments the waiting count;
`DecrementCount` releases exactly when the decremented count equals the
current waiting count, with no further `Wait` call; both operations
preserve `numWaiting ≤ count` and never decrease the generation. -/
theorem barrier_invariant (s : BarrierState) (hinv : s.numWaiting < s.count) :
    ((wait s).1.generation = s.generation + 1 ↔ s.numWaiting + 1 = s.count)
    ∧ (s.numWaiting + 1 = s.count →
        (wait s).1 = { s with numWaiting := 0, generation := s.generation + 1 })
    ∧ (s.numWaiting + 1 ≠ s.count →
        (wait s).1 = { s with numWaiting := s.numWaiting + 1 })
    ∧ (wait s).1.numWaiting ≤ (wait s).1.count
    ∧ s.generation ≤ (wait s).1.generation
    ∧ ((decrementCount s).generation = s.generation + 1 ↔
        s.numWaiting = s.count - 1)
    ∧ (s.numWaiting = s.count - 1 →
        decrementCount s =
          { count := s.count - 1, numWaiting := 0,
            generation := s.generation + 1 })
    ∧ (decrementCount s).numWaiting ≤ (decrementCount s).count
    ∧ s.generation ≤ (decrementCount s).generation := by
  obtain ⟨c, w, g⟩ := s
  simp only [wait, decrementCount, incrementGeneration] at *
  by_cases hw : w + 1 = c <;> by_cases hd : w = c - 1 <;>
    simp_all <;> omega

theorem barrier_invariant_witness :
    decrementCount { count := 2, numWaiting := 1, generation := 0 } =
      { count := 1, numWaiting := 0, generation := 1 } :=
  (barrier_invariant { count := 2, numWaiting := 1, generation := 0 }
    (by decide)).2.2.2.2.2.2.1 (by decide)

lemma take_two_eq_dashes (l : List Char) (h0 : l[0]? = some '-')
    (h1 : l[1]? = some '-') : l.take 2 = ['-', '-'] := by
  match l with
  | [] => simp at h0
  | [a] => simp at h1
  | a :: b :: t =>
    simp only [List.getElem?_cons_zero, Option.some.injEq] at h0
    simp only [List.getElem?_cons_succ, List.getElem?_cons_zero,
      Option.some.injEq] at h1
    simp [h0, h1]

/-- C4: flag reload.  (1) A reload attempt whose file modification time
equals the stored timestamp applies zero overrides (the empty-path case
included).  (2) A line whose comment-stripped, whitespace-stripped form
is non-empty and does not begin with `--` is a fatal error.  (3) The line
`--komi=7.5 # default` is applied as the override `komi = 7.5`, both at
line level and through a full reload of a one-line file whose
modification time changed. -/
theorem maybeReloadFlags_spec :
    (∀ env last, env.modTime = last →
      maybeReloadFlags env last = .ok (last, []))
    ∧ (∀ rawLine,
        stripAsciiWhitespace (splitFirst '#' rawLine).1 ≠ [] →
        (stripAsciiWhitespace (splitFirst '#' rawLine).1).take 2 ≠
          ['-', '-'] →
        processLine rawLine =
          .fatal (stripAsciiWhitespace (splitFirst '#' rawLine).1))
    ∧ processLine (("--komi=7.5 # default").toList) =
        .flagValue (("komi").toList) (("7.5").toList)
    ∧ maybeReloadFlags
        { flagsPath := ("f").toList, modTime := 7,
          contents := ("--komi=7.5 # default").toList } 5 =
        .ok (7, [((("komi").toList), (("7.5").toList))]) := by
  refine ⟨?_, ?_, by decide, ?_⟩
  · intro env last h
    unfold maybeReloadFlags
    rw [h]
    simp
  · intro rawLine hne hpre
    unfold processLine
    rw [if_neg hne, if_neg]
    rintro ⟨-, h0, h1⟩
    exact hpre (take_two_eq_dashes _ h0 h1)
  · rfl

theorem maybeReloadFlags_spec_witness :
    maybeReloadFlags
      { flagsPath := ("f").toList, modTime := 5,
        contents := ("--komi=6").toList } 5 = .ok (5, []) :=
  maybeReloadFlags_spec.1
    { flagsPath := ("f").toList, modTime := 5,
      contents := ("--komi=6").toList } 5 rfl

/-- C5: reply framing of `Send`.  For a framing reply line (non-empty,
first character `?` or `=`), the result is absent exactly when the line
begins with `?`; a line beginning with `=` yields its payload with the
leading `=` erased and surrounding whitespace stripped; the reply `?`
yields an absent result and the reply `= bar` yields `bar`. -/
theorem send_framing :
    (∀ l rest, l ≠ [] → (l[0]? = some '?' ∨ l[0]? = some '=') →
      (send (l :: rest) = some .absent ↔ l[0]? = some '?'))
    ∧ (∀ l rest, l[0]? = some '=' →
        send (l :: rest) = some (.payload (stripAsciiWhitespace (l.drop 1))))
    ∧ send [("?").toList] = some .absent
    ∧ send [("= bar").toList] = some (.payload (("bar").toList)) := by
  have heq : ∀ (l : List Char) (rest : List (List Char)),
      l[0]? = some '=' →
      send (l :: rest) = some (.payload (stripAsciiWhitespace (l.drop 1))) := by
    intro l rest h
    have hne : l ≠ [] := by
      intro hl
      rw [hl] at h
      simp at h
    unfold send
    rw [if_neg hne, if_neg (by rw [h]; decide), if_pos h]
  refine ⟨?_, heq, by decide, by decide⟩
  intro l rest hne hfr
  rcases hfr with hq | he
  · constructor
    · intro _
      exact hq
    · intro _
      unfold send
      rw [if_neg hne, if_pos hq]
  · rw [heq l rest he]
    constructor
    · intro hcontra
      exact SendResult.noConfusion (Option.some.inj hcontra)
    · intro hq
      rw [he] at hq
      exact absurd (Option.some.inj hq) (by decide : ('=' : Char) ≠ '?')

theorem send_framing_witness : send [("?").toList] = some SendResult.absent :=
  (send_framing.1 (("?").toList) [] (by decide) (Or.inl (by decide))).mpr
    (by decide)

/-- C6 counterexample: take thread 0's cohort (`gtp_is_black = false`,
main.cc:848-857 and 887-888), where the MCTS agent plays black and the
external engine plays white, with the agent to move and the bridge's
color black.  On a failure reply to `play`, the loop (main.cc:896-901)
plays `Coord::kResign` on the MCTS player's own board in the MCTS
player's own turn, so the recorded resigner is black — the internal
agent, not the external engine (`some Color.white`) as the claim's
"on the external engine's behalf" requires — and the tally
(main.cc:908-913) awards the win to the engine's `white_wins` counters,
not to the internal model's `black_wins` as a resignation by the engine
would. -/
theorem gtp_failure_resigns_internal_side :
    (gtpLoopIter { toPlay := Color.black, resignedBy := none } Color.black
        (Coord.point 0) SendResult.absent).1.resignedBy = some Color.black
    ∧ (gtpLoopIter { toPlay := Color.black, resignedBy := none } Color.black
        (Coord.point 0) SendResult.absent).1.resignedBy ≠ some Color.white
    ∧ gtpThreadRunTally
        (resignResult
          (gtpLoopIter { toPlay := Color.black, resignedBy := none }
            Color.black (Coord.point 0) SendResult.absent).1)
        { blackWins := 0, whiteWins := 0 } { blackWins := 0, whiteWins := 0 } =
      ({ blackWins := 0, whiteWins := 0 }, { blackWins := 0, whiteWins := 1 })
    ∧ gtpThreadRunTally
        (resignResult
          (gtpLoopIter { toPlay := Color.black, resignedBy := none }
            Color.black (Coord.point 0) SendResult.absent).1)
        { blackWins := 0, whiteWins := 0 } { blackWins := 0, whiteWins := 0 } ≠
      ({ blackWins := 1, whiteWins := 0 }, { blackWins := 0, whiteWins := 0 }) := by
  decide

/-- C6 (amended): when the external engine answers the `play` command
with a failure reply, `Play` returns `false` to the caller (it does not
abort) and the tracked side-to-move color is unchanged (no premature
color swap); the orchestrator then substitutes `Coord::kResign` for the
internal agent's own move, so the resignation is recorded against the
internal agent's side (the side to move) and the game terminates — with
the decisive result favoring the external engine's color, so the tally
(main.cc:908-913) awards the win to the external engine's counters
(`white_results = gtp_results` when the agent plays black,
`black_results = gtp_results` in the swapped cohort, main.cc:848-857).
On a success reply `Play` returns `true`, the color swaps, and the
suggested move is played. -/
theorem gtpPlay_failure (c : Color) (suggested : Coord)
    (p : MctsPlayerModel) :
    gtpPlay c .absent = (false, c)
    ∧ evalPlayStep suggested c .absent = (Coord.resign, c)
    ∧ (gtpLoopIter p c suggested .absent).1 =
        { p with resignedBy := some p.toPlay }
    ∧ (gtpLoopIter p c suggested .absent).2 = c
    ∧ (p.toPlay = Color.black →
        resignResult (gtpLoopIter p c suggested .absent).1 = -1)
    ∧ (p.toPlay = Color.white →
        resignResult (gtpLoopIter p c suggested .absent).1 = 1)
    ∧ (∀ bR wR : EvalResults, p.toPlay = Color.black →
        gtpThreadRunTally (resignResult (gtpLoopIter p c suggested .absent).1)
          bR wR = (bR, { wR with whiteWins := wR.whiteWins + 1 }))
    ∧ (∀ bR wR : EvalResults, p.toPlay = Color.white →
        gtpThreadRunTally (resignResult (gtpLoopIter p c suggested .absent).1)
          bR wR = ({ bR with blackWins := bR.blackWins + 1 }, wR))
    ∧ (∀ s, gtpPlay c (.payload s) = (true, OtherColor c))
    ∧ (∀ s, evalPlayStep suggested c (.payload s) =
        (suggested, OtherColor c)) := by
  obtain ⟨tp, rb⟩ := p
  refine ⟨rfl, rfl, rfl, rfl, ?_, ?_, ?_, ?_, fun s => rfl, fun s => rfl⟩
  · intro h
    cases tp
    · rfl
    · exact Color.noConfusion h
  · intro h
    cases tp
    · exact Color.noConfusion h
    · rfl
  · intro bR wR h
    cases tp
    · show gtpThreadRunTally (-1) bR wR = _
      unfold gtpThreadRunTally
      rw [if_neg (by norm_num), if_pos (by norm_num)]
    · exact Color.noConfusion h
  · intro bR wR h
    cases tp
    · exact Color.noConfusion h
    · show gtpThreadRunTally 1 bR wR = _
      unfold gtpThreadRunTally
      rw [if_pos (by norm_num), if_neg (by norm_num)]

theorem gtpPlay_failure_witness :
    gtpThreadRunTally
      (resignResult (gtpLoopIter { toPlay := Color.black, resignedBy := none }
        Color.black Coord.pass SendResult.absent).1)
      { blackWins := 2, whiteWins := 3 } { blackWins := 4, whiteWins := 5 } =
    ({ blackWins := 2, whiteWins := 3 }, { blackWins := 4, whiteWins := 6 }) :=
  (gtpPlay_failure Color.black Coord.pass
    { toPlay := Color.black, resignedBy := none }).2.2.2.2.2.2.1
    { blackWins := 2, whiteWins := 3 } { blackWins := 4, whiteWins := 5 } rfl

lemma runPairGame_aux (moves : List Coord) (s : PairGameState)
    (h : s.playerHist = s.otherHist) :
    (moves.foldl pairMoveStep s).playerHist =
      (moves.foldl pairMoveStep s).otherHist := by
  induction moves generalizing s with
  | nil => exact h
  | cons m ms ih => exact ih _ (by simp [pairMoveStep, h])

/-- C7: paired evaluation.  (1) Running the move loop leaves the two
mirrored player instances with identical histories, so any result
computed from the history agrees between them
(`player->result() == other_player->result()`).  (2) With the agreed
result `r`: when `r > 0` only the black-playing model's `black_wins`
counter is incremented, when `r < 0` only the white-playing model's
`white_wins` counter is incremented, and for any nonzero `r` the four
counters grow by exactly one win in total per completed mirrored pair. -/
theorem pairEvaluation_attribution :
    (∀ moves, (runPairGame moves).playerHist = (runPairGame moves).otherHist)
    ∧ (∀ moves (result : List Coord → ℚ),
        result (runPairGame moves).playerHist =
          result (runPairGame moves).otherHist)
    ∧ (∀ (r : ℚ) m o, 0 < r →
        threadRunTally r m o = ({ m with blackWins := m.blackWins + 1 }, o))
    ∧ (∀ (r : ℚ) m o, r < 0 →
        threadRunTally r m o = (m, { o with whiteWins := o.whiteWins + 1 }))
    ∧ (∀ (r : ℚ) m o, r ≠ 0 →
        (threadRunTally r m o).1.blackWins + (threadRunTally r m o).1.whiteWins
          + (threadRunTally r m o).2.blackWins
          + (threadRunTally r m o).2.whiteWins =
        m.blackWins + m.whiteWins + o.blackWins + o.whiteWins + 1) := by
  have hmirror : ∀ moves,
      (runPairGame moves).playerHist = (runPairGame moves).otherHist :=
    fun moves => runPairGame_aux moves _ rfl
  refine ⟨hmirror, fun moves result => by rw [hmirror], ?_, ?_, ?_⟩
  · intro r m o hr
    unfold threadRunTally
    rw [if_pos hr, if_neg (by linarith)]
  · intro r m o hr
    unfold threadRunTally
    rw [if_neg (by linarith), if_pos hr]
  · intro r m o hr
    unfold threadRunTally
    rcases lt_trichotomy r 0 with hlt | hz | hgt
    · rw [if_neg (by linarith), if_pos hlt]
      simp
      omega
    · exact absurd hz hr
    · rw [if_pos hgt, if_neg (by linarith)]
      simp
      omega

theorem pairEvaluation_attribution_witness :
    threadRunTally (15 / 2 : ℚ) ⟨3, 4⟩ ⟨5, 6⟩ =
      ({ blackWins := 4, whiteWins := 4 },
        { blackWins := 5, whiteWins := 6 }) :=
  pairEvaluation_attribution.2.2.1 (15 / 2 : ℚ) ⟨3, 4⟩ ⟨5, 6⟩ (by norm_num)

/-- C8: model-switch rejection.  The per-game reload checkpoint in
self-play records the model flag, runs the reload, and compares: when the
applied overrides leave the model flag's value unchanged the checkpoint
proceeds with the new flags, and any discrepancy aborts with the fatal
configuration error; in particular a reload whose file sets `--model=b`
while the flag held `a` aborts the run. -/
theorem selfplayCheckpoint_spec :
    (∀ flags env last ts ovs, maybeReloadFlags env last = .ok (ts, ovs) →
      getFlag (applyOverrides flags ovs) modelFlagName =
        getFlag flags modelFlagName →
      selfplayReloadCheckpoint flags env last =
        .ok (applyOverrides flags ovs, ts))
    ∧ (∀ flags env last ts ovs, maybeReloadFlags env last = .ok (ts, ovs) →
      getFlag (applyOverrides flags ovs) modelFlagName ≠
        getFlag flags modelFlagName →
      selfplayReloadCheckpoint flags env last = .error modelSwitchError)
    ∧ selfplayReloadCheckpoint [(modelFlagName, ("a").toList)]
        { flagsPath := ("f").toList, modTime := 7,
          contents := ("--model=b").toList } 5 = .error modelSwitchError := by
  refine ⟨?_, ?_, rfl⟩
  · intro flags env last ts ovs hrel hsame
    unfold selfplayReloadCheckpoint
    rw [hrel]
    dsimp only
    rw [if_pos hsame]
  · intro flags env last ts ovs hrel hdiff
    unfold selfplayReloadCheckpoint
    rw [hrel]
    dsimp only
    rw [if_neg hdiff]

theorem selfplayCheckpoint_spec_witness :
    selfplayReloadCheckpoint [(modelFlagName, ("a").toList)]
      { flagsPath := ("f").toList, modTime := 7,
        contents := ("--model=b").toList } 5 = .error modelSwitchError :=
  selfplayCheckpoint_spec.2.1 [(modelFlagName, ("a").toList)]
    { flagsPath := ("f").toList, modTime := 7,
      contents := ("--model=b").toList } 5 7
    [((("model").toList), (("b").toList))] rfl (by decide)

/-- C9: output naming.  For every epoch-second timestamp `t`, hostname
and worker index `i` the base output name is the concatenation
`<unix-seconds>-<hostname>-<i>`; at timestamp `1700000000`, host `h1`,
index `3` it equals `1700000000-h1-3`; the output directory is the
configured root joined with the UTC `%Y-%m-%d-%H` bucket of `t`, which
for `1700000000` is `2023-11-14-22`. -/
theorem output_naming :
    (∀ t host i, getOutputName t host i =
      toString t ++ "-" ++ host ++ "-" ++ toString i)
    ∧ getOutputName 1700000000 "h1" 3 = "1700000000-h1-3"
    ∧ (∀ t root, getOutputDir t root = root ++ "/" ++ formatUtcBucket t)
    ∧ formatUtcBucket 1700000000 = "2023-11-14-22"
    ∧ getOutputDir 1700000000 "root" = "root/2023-11-14-22" :=
  ⟨fun t host i => rfl, by decide, fun t root => rfl, by decide, by decide⟩

theorem output_naming_witness :
    getOutputName 1700000000 "h1" 3 =
      toString 1700000000 ++ "-" ++ "h1" ++ "-" ++ toString 3 :=
  output_naming.1 1700000000 "h1" 3

/-- C10: in GTP-evaluation mode the shared inference factory is created
for `max(parallel_games / 2, 1)` workers, while the self-play and
paired-evaluation call sites use `parallel_games` itself; consequently,
for `B ≥ 1`, the GTP factory's batch size equals
`max(ceil(V * max(parallel_games / 2, 1) / B), V)` (conjuncts 5 and 6
characterize `natCeilDiv` as the mathematical ceiling). -/
theorem gtpEvaluator_halves_concurrency (pg V B : Nat) (hB : 1 ≤ B) :
    gtpEvaluatorFactoryGames pg = max (pg / 2) 1
    ∧ selfPlayerFactoryGames pg = pg
    ∧ pairEvaluatorFactoryGames pg = pg
    ∧ gtpEvaluatorBatchSize pg V B =
        max (natCeilDiv (V * max (pg / 2) 1) B) V
    ∧ V * max (pg / 2) 1 ≤ B * natCeilDiv (V * max (pg / 2) 1) B
    ∧ (∀ n, V * max (pg / 2) 1 ≤ B * n →
        natCeilDiv (V * max (pg / 2) 1) B ≤ n) :=
  ⟨rfl, rfl, rfl, rfl, natCeilDiv_is_upper _ _ hB,
    fun n hn => natCeilDiv_is_least _ _ _ hB hn⟩

theorem gtpEvaluator_halves_concurrency_witness :
    gtpEvaluatorFactoryGames 32 = max (32 / 2) 1 ∧
      gtpEvaluatorBatchSize 32 8 8 = max (natCeilDiv (8 * max (32 / 2) 1) 8) 8 :=
  ⟨(gtpEvaluator_halves_concurrency 32 8 8 (by decide)).1,
    (gtpEvaluator_halves_concurrency 32 8 8 (by decide)).2.2.2.1⟩

end Minigo
